import Mathlib

/-!
Shallow embedding of `src/crates/criticaltrust/src/signatures/payload.rs`
(the `SignedPayload` container and its signature-verification algorithm),
together with the key capability boundary it is parameterized over.

The payload module is translated directly from the source. The key
capability (`PublicKey`, `KeyPair`, the `Error` enum) lives in the crate's
`keys` module, which is not part of the provided sources; those pieces are
modelled from the spec, as marked in their doc comments.
-/

namespace Criticaltrust

/-- Content-derived identifier of a public key (digest of its encoded bytes),
abstracted as a number. -/
abbrev KeyId := Nat

/-- Raw signature bytes, abstracted as a list of byte values. -/
abbrev SignatureBytes := List Nat

/-- Modelled from the spec: the closed enumeration of key roles (root,
packages, releases, redirects); the `keys` module defining it is not under
the provided sources. -/
inductive KeyRole where
  | root
  | packages
  | releases
  | redirects
deriving DecidableEq, Repr

/-- Modelled from the spec: the crate's `Error` enum is not under the provided
sources. The spec's error taxonomy names serialization failure,
deserialization failure, the single uniform verification failure, and other
defect kinds surfaced by the key capability (malformed signature encoding,
unsupported algorithm). Payload-carrying variants drop their payloads. -/
inductive Error where
  | VerificationFailed
  | DeserializationFailed
  | SignedPayloadSerializationFailed
  | MalformedSignatureEncoding
  | UnsupportedAlgorithm
deriving DecidableEq, Repr

/-- Modelled from the spec: a public key carries a role, an algorithm, an
optional expiry and its encoded bytes. Here `id` stands for the
content-derived digest `calculate_id` returns, `expired` for the outcome of
comparing the expiry against the current time, and `cryptoVerify` for the raw
cryptographic verification capability, which may also surface defect errors
such as malformed signature encoding or an unsupported algorithm. -/
structure PublicKey where
  id : KeyId
  role : KeyRole
  expired : Bool
  cryptoVerify : String → SignatureBytes → Except Error Unit

/-- Modelled from the spec: `PublicKey::verify` checks role match, non-expiry
and cryptographic validity as one atomic outcome, collapsing the three policy
failures into the uniform `VerificationFailed`. -/
def PublicKey.verify (k : PublicKey) (role : KeyRole) (data : String)
    (sig : SignatureBytes) : Except Error Unit :=
  if k.role = role ∧ k.expired = false then k.cryptoVerify data sig
  else .error .VerificationFailed

/-- `Signature` struct from payload.rs: identifies which key produced the
signature (by its digest) together with the signature bytes. -/
structure Signature where
  key_sha256 : KeyId
  signature : SignatureBytes
deriving DecidableEq, Repr

/-- `PublicKeysRepository` trait from payload.rs: resolves a key id to a
public key. -/
structure PublicKeysRepository where
  get : KeyId → Option PublicKey

/-- `Signable` trait from payload.rs: the key role authorized to verify values
of `T`, together with the serde codec the payload code invokes
(`serde_json::to_string` / `serde_json::from_slice`), abstracted as partial
functions to and from the canonical string form. -/
structure Signable (T : Type) where
  SIGNED_BY_ROLE : KeyRole
  serialize : T → Option String
  deserialize : String → Option T

/-- `KeyPair` trait (modelled from the spec for its `keys`-module half): owns
a public key and a signing capability over payload bytes. `calculate_id` of
its public key is the key's `id` field. -/
structure KeyPair where
  public : PublicKey
  sign : String → Except Error SignatureBytes

/-- `verify_signature` from payload.rs: iterate the signatures in stored
order; skip a signature whose key id does not resolve in the repository;
otherwise invoke the key's verify with the role required for `T`. Skip on the
uniform `VerificationFailed`, abort on any other error. On the first success,
deserialize the canonical bytes (mapping a codec failure to
`DeserializationFailed`) and return. Exhaustion yields `VerificationFailed`. -/
def verify_signature {T : Type} (inst : Signable T) (keys : PublicKeysRepository)
    (signatures : List Signature) (signed : String) : Except Error T :=
  match signatures with
  | [] => .error .VerificationFailed
  | signature :: rest =>
    match keys.get signature.key_sha256 with
    | none => verify_signature inst keys rest signed
    | some key =>
      match key.verify inst.SIGNED_BY_ROLE signed signature.signature with
      | .ok _ =>
        match inst.deserialize signed with
        | some value => .ok value
        | none => .error .DeserializationFailed
      | .error .VerificationFailed => verify_signature inst keys rest signed
      | .error e => .error e

/-- `SignedPayload<T>` from payload.rs: the attached signatures, the canonical
serialized form `signed`, and the `verified_deserialized` cache cell
(`RefCell<Option<T>>`, skipped by serde). -/
structure SignedPayload (T : Type) where
  signatures : List Signature
  signed : String
  verified_deserialized : Option T

/-- `SignedPayload::new` from payload.rs: serializes the value into the
canonical form; no signature is generated. -/
def SignedPayload.new {T : Type} (inst : Signable T) (to_sign : T) :
    Except Error (SignedPayload T) :=
  match inst.serialize to_sign with
  | some s => .ok { signatures := [], signed := s, verified_deserialized := none }
  | none => .error .SignedPayloadSerializationFailed

/-- `SignedPayload::add_signature` from payload.rs: signs the canonical bytes
with the keypair and pushes a `Signature` tagged with the key's id; the `?` on
`sign` propagates a signing error before anything is pushed. The returned pair
is (method result, state of `self` after the call). -/
def SignedPayload.add_signature {T : Type} (p : SignedPayload T)
    (keypair : KeyPair) : Except Error Unit × SignedPayload T :=
  match keypair.sign p.signed with
  | .error e => (.error e, p)
  | .ok s =>
    (.ok (), { p with
      signatures := p.signatures ++ [{ key_sha256 := keypair.public.id, signature := s }] })

/-- `SignedPayload::get_verified` from payload.rs. The `RefCell` is explicit
state: the result pairs the method's return value with the state of the cache
cell after the call. If the cache is empty, `verify_signature` runs and `?`
propagates its error (leaving the cache untouched); on success the cache is
populated before any reference escapes. The final `Ref::map(..., unwrap)` on
the cache is modelled by the outer `Option`: `none` is the state in which the
unwrap would panic. -/
def SignedPayload.get_verified {T : Type} (inst : Signable T)
    (p : SignedPayload T) (keys : PublicKeysRepository) :
    Option (Except Error T × SignedPayload T) :=
  let step : Except Error (SignedPayload T) :=
    match p.verified_deserialized with
    | some _ => .ok p
    | none =>
      match verify_signature inst keys p.signatures p.signed with
      | .ok value => .ok { p with verified_deserialized := some value }
      | .error e => .error e
  match step with
  | .error e => some (.error e, p)
  | .ok p1 =>
    match p1.verified_deserialized with
    | some value => some (.ok value, p1)
    | none => none

/-- `SignedPayload::into_verified` from payload.rs: consumes the payload;
returns the cached value when the cache is populated, otherwise verifies. -/
def SignedPayload.into_verified {T : Type} (inst : Signable T)
    (p : SignedPayload T) (keys : PublicKeysRepository) : Except Error T :=
  match p.verified_deserialized with
  | some deserialized => .ok deserialized
  | none => verify_signature inst keys p.signatures p.signed

/-- The serde serialized form of a `SignedPayload`: the `signatures` and
`signed` fields only; the cache field is `#[serde(skip)]`. -/
structure SerializedForm where
  signatures : List Signature
  signed : String
deriving DecidableEq, Repr

/-- Serializing a `SignedPayload` keeps `signatures` and `signed` and drops
the cache (`#[serde(skip)]`). -/
def SignedPayload.toSerialized {T : Type} (p : SignedPayload T) : SerializedForm :=
  { signatures := p.signatures, signed := p.signed }

/-- Deserializing a `SignedPayload` reconstructs `signatures` and `signed` and
resets the cache to its default, `none` (`#[serde(skip)]`). -/
def SerializedForm.toPayload (T : Type) (s : SerializedForm) : SignedPayload T :=
  { signatures := s.signatures, signed := s.signed, verified_deserialized := none }

/-- A signature the verification loop of `verify_signature` skips: its key id
does not resolve in the repository, or the resolved key's verify reports the
uniform verification failure. -/
def skipped (role : KeyRole) (keys : PublicKeysRepository) (signed : String)
    (s : Signature) : Prop :=
  keys.get s.key_sha256 = none ∨
    ∃ k, keys.get s.key_sha256 = some k ∧
      k.verify role signed s.signature = .error .VerificationFailed

/-- A signature that verifies successfully: its key id resolves in the
repository and the resolved key's verify succeeds on the canonical bytes. -/
def accepted (role : KeyRole) (keys : PublicKeysRepository) (signed : String)
    (s : Signature) : Prop :=
  ∃ k, keys.get s.key_sha256 = some k ∧
    k.verify role signed s.signature = .ok ()

/-! Concrete fixtures, mirroring the test setup of payload.rs (a packages-role
payload whose canonical form is the string "42"). -/

/-- A concrete `Signable` instance over `Nat` whose canonical form is `"42"`,
playing the part of `TestData` in the payload.rs tests. -/
def exInst : Signable Nat :=
  { SIGNED_BY_ROLE := .packages
    serialize := fun n => some (toString n)
    deserialize := fun s => if s = "42" then some 42 else none }

/-- A trusted, role-correct, unexpired key whose signature over `"42"` is
`[7]`. -/
def exKeyOk : PublicKey :=
  { id := 1
    role := .packages
    expired := false
    cryptoVerify := fun data sig =>
      if sig = [7] ∧ data = "42" then .ok () else .error .VerificationFailed }

/-- A key whose raw verification capability surfaces a defect error
(unsupported algorithm) rather than the uniform verification failure. -/
def exKeyDefect : PublicKey :=
  { id := 2
    role := .packages
    expired := false
    cryptoVerify := fun _ _ => .error .UnsupportedAlgorithm }

/-- An expired key of the right role. -/
def exKeyExpired : PublicKey :=
  { id := 3
    role := .packages
    expired := true
    cryptoVerify := fun _ _ => .ok () }

/-- A role-correct, unexpired key accepting any bytes (used to pair a valid
signature with malformed canonical bytes). -/
def exKeyAny : PublicKey :=
  { id := 4
    role := .packages
    expired := false
    cryptoVerify := fun _ _ => .ok () }

/-- The concrete repository resolving the fixture keys by their ids. -/
def exRepo : PublicKeysRepository :=
  { get := fun i =>
      if i = 1 then some exKeyOk
      else if i = 2 then some exKeyDefect
      else if i = 3 then some exKeyExpired
      else if i = 4 then some exKeyAny
      else none }

/-- The empty repository: no key id resolves. -/
def exEmptyRepo : PublicKeysRepository := { get := fun _ => none }

/-- A signature by the valid key. -/
def exSigOk : Signature := { key_sha256 := 1, signature := [7] }

/-- A signature by the defect-surfacing key. -/
def exSigDefect : Signature := { key_sha256 := 2, signature := [9] }

/-- A signature whose key id resolves to no key. -/
def exSigMissing : Signature := { key_sha256 := 99, signature := [9] }

/-- A signature by the expired key. -/
def exSigExpired : Signature := { key_sha256 := 3, signature := [7] }

/-- A signature by the accept-anything key. -/
def exSigAny : Signature := { key_sha256 := 4, signature := [7] }

/-- A concrete keypair over `exKeyOk` that signs `"42"` with `[7]` and
surfaces a signing defect on anything else. -/
def exKeyPair : KeyPair :=
  { public := exKeyOk
    sign := fun data =>
      if data = "42" then .ok [7] else .error .MalformedSignatureEncoding }

/-! Helper lemmas about the verification loop. -/

/-- The loop steps over a skipped signature. -/
theorem verify_signature_skip {T : Type} (inst : Signable T)
    (keys : PublicKeysRepository) (s : Signature) (rest : List Signature)
    (signed : String) (h : skipped inst.SIGNED_BY_ROLE keys signed s) :
    verify_signature inst keys (s :: rest) signed
      = verify_signature inst keys rest signed := by
  rcases h with h | ⟨k, hk, hv⟩
  · simp [verify_signature, h]
  · simp [verify_signature, hk, hv]

/-- A list of skipped signatures exhausts the loop. -/
theorem verify_signature_all_skipped {T : Type} (inst : Signable T)
    (keys : PublicKeysRepository) (sigs : List Signature) (signed : String)
    (h : ∀ s ∈ sigs, skipped inst.SIGNED_BY_ROLE keys signed s) :
    verify_signature inst keys sigs signed = .error .VerificationFailed := by
  induction sigs with
  | nil => rfl
  | cons s rest ih =>
    rw [verify_signature_skip inst keys s rest signed (h s (List.mem_cons_self s rest))]
    exact ih fun x hx => h x (List.mem_cons_of_mem s hx)

/-- At the first accepted signature the loop returns the deserialization of
the canonical bytes. -/
theorem verify_signature_accept {T : Type} (inst : Signable T)
    (keys : PublicKeysRepository) (s : Signature) (rest : List Signature)
    (signed : String) (h : accepted inst.SIGNED_BY_ROLE keys signed s) :
    verify_signature inst keys (s :: rest) signed
      = match inst.deserialize signed with
        | some value => .ok value
        | none => .error .DeserializationFailed := by
  rcases h with ⟨k, hk, hv⟩
  simp [verify_signature, hk, hv]

/-- Skipped signatures before the first accepted one do not change the
outcome. -/
theorem verify_signature_first_accepted {T : Type} (inst : Signable T)
    (keys : PublicKeysRepository) (pre post : List Signature) (s : Signature)
    (signed : String)
    (hpre : ∀ x ∈ pre, skipped inst.SIGNED_BY_ROLE keys signed x)
    (hs : accepted inst.SIGNED_BY_ROLE keys signed s) :
    verify_signature inst keys (pre ++ s :: post) signed
      = match inst.deserialize signed with
        | some value => .ok value
        | none => .error .DeserializationFailed := by
  induction pre with
  | nil => exact verify_signature_accept inst keys s post signed hs
  | cons x rest ih =>
    rw [List.cons_append,
      verify_signature_skip inst keys x (rest ++ s :: post) signed
        (hpre x (List.mem_cons_self x rest))]
    exact ih fun y hy => hpre y (List.mem_cons_of_mem x hy)

/-- When the cache is empty, `get_verified` is determined by the outcome of
`verify_signature`. -/
theorem get_verified_of_cache_none {T : Type} (inst : Signable T)
    (p : SignedPayload T) (keys : PublicKeysRepository)
    (hc : p.verified_deserialized = none) :
    SignedPayload.get_verified inst p keys
      = match verify_signature inst keys p.signatures p.signed with
        | .ok v => some (.ok v, { p with verified_deserialized := some v })
        | .error e => some (.error e, p) := by
  cases hv : verify_signature inst keys p.signatures p.signed with
  | ok v => simp [SignedPayload.get_verified, hc, hv]
  | error e => simp [SignedPayload.get_verified, hc, hv]

/-- When the cache is populated, `get_verified` returns the cached value and
does not touch the state. -/
theorem get_verified_of_cache_some {T : Type} (inst : Signable T)
    (p : SignedPayload T) (keys : PublicKeysRepository) (v : T)
    (hc : p.verified_deserialized = some v) :
    SignedPayload.get_verified inst p keys = some (.ok v, p) := by
  simp [SignedPayload.get_verified, hc]

/-- A successful `get_verified` leaves the returned value in the cache of the
resulting state. -/
theorem get_verified_ok_cache {T : Type} (inst : Signable T)
    (p p₁ : SignedPayload T) (keys : PublicKeysRepository) (v : T)
    (h : SignedPayload.get_verified inst p keys = some (.ok v, p₁)) :
    p₁.verified_deserialized = some v := by
  cases hc : p.verified_deserialized with
  | some w =>
    rw [get_verified_of_cache_some inst p keys w hc] at h
    simp only [Option.some.injEq, Prod.mk.injEq, Except.ok.injEq] at h
    rw [← h.2, hc, h.1]
  | none =>
    rw [get_verified_of_cache_none inst p keys hc] at h
    cases hv : verify_signature inst keys p.signatures p.signed with
    | ok w =>
      rw [hv] at h
      simp only [Option.some.injEq, Prod.mk.injEq, Except.ok.injEq] at h
      rw [← h.2, h.1]
    | error e =>
      rw [hv] at h
      simp at h

/-- A failed `get_verified` leaves the state unchanged, and can only happen
with an empty cache and a failing `verify_signature`. -/
theorem get_verified_error_state {T : Type} (inst : Signable T)
    (p p₁ : SignedPayload T) (keys : PublicKeysRepository) (e : Error)
    (h : SignedPayload.get_verified inst p keys = some (.error e, p₁)) :
    p₁ = p ∧ p.verified_deserialized = none ∧
      verify_signature inst keys p.signatures p.signed = .error e := by
  cases hc : p.verified_deserialized with
  | some w =>
    rw [get_verified_of_cache_some inst p keys w hc] at h
    simp at h
  | none =>
    rw [get_verified_of_cache_none inst p keys hc] at h
    cases hv : verify_signature inst keys p.signatures p.signed with
    | ok w => rw [hv] at h; simp at h
    | error e₁ =>
      rw [hv] at h
      simp only [Option.some.injEq, Prod.mk.injEq, Except.error.injEq] at h
      exact ⟨h.2.symm, rfl, by rw [h.1]⟩

/-! The claims. -/

/-- C1: for any signature list split as `pre ++ good :: post` where the good
signature's key id resolves in the repository to a trusted key that is
role-correct, unexpired and cryptographically valid for the canonical bytes,
while every other signature is unresolved or rejected with the uniform
verification failure, both `get_verified` (on an unpopulated cache) and
`into_verified` return the original value, whatever the position of the good
signature and however many bad signatures surround it. -/
theorem c1_one_good_signature_suffices {T : Type} (inst : Signable T)
    (keys : PublicKeysRepository) (pre post : List Signature) (s : Signature)
    (k : PublicKey) (signed : String) (value : T)
    (hres : keys.get s.key_sha256 = some k)
    (hrole : k.role = inst.SIGNED_BY_ROLE)
    (hexp : k.expired = false)
    (hcrypto : k.cryptoVerify signed s.signature = .ok ())
    (hpre : ∀ x ∈ pre, skipped inst.SIGNED_BY_ROLE keys signed x)
    (_hpost : ∀ x ∈ post, skipped inst.SIGNED_BY_ROLE keys signed x)
    (hval : inst.deserialize signed = some value) :
    SignedPayload.get_verified inst ⟨pre ++ s :: post, signed, none⟩ keys
      = some (.ok value, ⟨pre ++ s :: post, signed, some value⟩) ∧
    SignedPayload.into_verified inst ⟨pre ++ s :: post, signed, none⟩ keys
      = .ok value := by
  have hverify : k.verify inst.SIGNED_BY_ROLE signed s.signature = .ok () := by
    simp [PublicKey.verify, hrole, hexp, hcrypto]
  have hvs : verify_signature inst keys (pre ++ s :: post) signed = .ok value := by
    rw [verify_signature_first_accepted inst keys pre post s signed hpre
      ⟨k, hres, hverify⟩, hval]
  constructor
  · rw [get_verified_of_cache_none inst ⟨pre ++ s :: post, signed, none⟩ keys rfl]
    rw [hvs]
  · rw [SignedPayload.into_verified]
    exact hvs

/-- Witness for C1 at a concrete payload: a good signature between an
unresolved one and an expired one. -/
theorem c1_one_good_signature_suffices_witness :
    SignedPayload.get_verified exInst
        ⟨[exSigMissing, exSigOk, exSigExpired], "42", none⟩ exRepo
      = some (.ok 42, ⟨[exSigMissing, exSigOk, exSigExpired], "42", some 42⟩) ∧
    SignedPayload.into_verified exInst
        ⟨[exSigMissing, exSigOk, exSigExpired], "42", none⟩ exRepo = .ok 42 :=
  c1_one_good_signature_suffices exInst exRepo [exSigMissing] [exSigExpired]
    exSigOk exKeyOk "42" 42 rfl rfl rfl rfl
    (by
      intro x hx
      rw [List.mem_singleton] at hx
      subst hx
      exact Or.inl rfl)
    (by
      intro x hx
      rw [List.mem_singleton] at hx
      subst hx
      exact Or.inr ⟨exKeyExpired, rfl, rfl⟩)
    rfl

/-- C2: when no signature in the list both resolves in the repository and
verifies successfully, `verify_signature` fails, and its result does not
depend on the deserializer at all: the canonical bytes are never parsed
before a successful verification. -/
theorem c2_no_parse_without_verified_signature {T : Type} (inst : Signable T)
    (keys : PublicKeysRepository) (sigs : List Signature) (signed : String)
    (h : ∀ s ∈ sigs, ¬ accepted inst.SIGNED_BY_ROLE keys signed s) :
    (∃ e, verify_signature inst keys sigs signed = .error e) ∧
    ∀ d : String → Option T,
      verify_signature { inst with deserialize := d } keys sigs signed
        = verify_signature inst keys sigs signed := by
  induction sigs with
  | nil => exact ⟨⟨.VerificationFailed, rfl⟩, fun d => rfl⟩
  | cons s rest ih =>
    have hrest := ih fun x hx => h x (List.mem_cons_of_mem s hx)
    cases hk : keys.get s.key_sha256 with
    | none =>
      constructor
      · rcases hrest.1 with ⟨e, he⟩
        exact ⟨e, by rw [verify_signature_skip inst keys s rest signed (Or.inl hk)]; exact he⟩
      · intro d
        rw [verify_signature_skip inst keys s rest signed (Or.inl hk),
          verify_signature_skip { inst with deserialize := d } keys s rest signed (Or.inl hk)]
        exact hrest.2 d
    | some k =>
      cases hv : k.verify inst.SIGNED_BY_ROLE signed s.signature with
      | ok u =>
        exact absurd ⟨k, hk, by rw [hv]⟩ (h s (List.mem_cons_self s rest))
      | error e =>
        cases e with
        | VerificationFailed =>
          constructor
          · rcases hrest.1 with ⟨e, he⟩
            exact ⟨e, by
              rw [verify_signature_skip inst keys s rest signed (Or.inr ⟨k, hk, hv⟩)]
              exact he⟩
          · intro d
            rw [verify_signature_skip inst keys s rest signed (Or.inr ⟨k, hk, hv⟩),
              verify_signature_skip { inst with deserialize := d } keys s rest signed
                (Or.inr ⟨k, hk, hv⟩)]
            exact hrest.2 d
        | DeserializationFailed =>
          exact ⟨⟨.DeserializationFailed, by simp [verify_signature, hk, hv]⟩,
            fun d => by simp [verify_signature, hk, hv]⟩
        | SignedPayloadSerializationFailed =>
          exact ⟨⟨.SignedPayloadSerializationFailed, by simp [verify_signature, hk, hv]⟩,
            fun d => by simp [verify_signature, hk, hv]⟩
        | MalformedSignatureEncoding =>
          exact ⟨⟨.MalformedSignatureEncoding, by simp [verify_signature, hk, hv]⟩,
            fun d => by simp [verify_signature, hk, hv]⟩
        | UnsupportedAlgorithm =>
          exact ⟨⟨.UnsupportedAlgorithm, by simp [verify_signature, hk, hv]⟩,
            fun d => by simp [verify_signature, hk, hv]⟩

/-- Witness for C2 at a concrete list with an unresolved and an expired
signature. -/
theorem c2_no_parse_without_verified_signature_witness :
    (∃ e, verify_signature exInst exRepo [exSigMissing, exSigExpired] "42" = .error e) ∧
    ∀ d : String → Option Nat,
      verify_signature { exInst with deserialize := d } exRepo
          [exSigMissing, exSigExpired] "42"
        = verify_signature exInst exRepo [exSigMissing, exSigExpired] "42" :=
  c2_no_parse_without_verified_signature exInst exRepo [exSigMissing, exSigExpired] "42"
    (by
      intro x hx
      rw [List.mem_cons, List.mem_singleton] at hx
      rcases hx with hx | hx
      · subst hx
        rintro ⟨k, hk, -⟩
        exact Option.noConfusion hk
      · subst hx
        rintro ⟨k, hk, hv⟩
        rw [← Option.some.inj hk] at hv
        exact Except.noConfusion hv)

/-- C3 counterexample: a repository and signature list in which no signature
both resolves and verifies successfully, yet neither accessor fails with the
uniform verification-failure error: the resolved key's verify surfaces a
defect (unsupported algorithm) which the loop propagates instead. -/
theorem c3_counterexample :
    (∀ s ∈ [exSigDefect], ¬ accepted exInst.SIGNED_BY_ROLE exRepo "42" s) ∧
    SignedPayload.get_verified exInst ⟨[exSigDefect], "42", none⟩ exRepo
      = some (.error .UnsupportedAlgorithm, ⟨[exSigDefect], "42", none⟩) ∧
    SignedPayload.into_verified exInst ⟨[exSigDefect], "42", none⟩ exRepo
      = .error .UnsupportedAlgorithm ∧
    Error.UnsupportedAlgorithm ≠ Error.VerificationFailed := by
  refine ⟨?_, rfl, rfl, by decide⟩
  intro x hx
  rw [List.mem_singleton] at hx
  subst hx
  rintro ⟨k, hk, hv⟩
  rw [← Option.some.inj hk] at hv
  exact Except.noConfusion hv

/-- C3 amended: when every signature in the list is skipped by the loop — its
key id does not resolve, or the key's verify reports the uniform verification
failure — and in particular for the empty signature list, both `get_verified`
(with an unpopulated cache) and `into_verified` fail with
`VerificationFailed`. -/
theorem c3_all_skipped_verification_failure {T : Type} (inst : Signable T)
    (keys : PublicKeysRepository) (sigs : List Signature) (signed : String)
    (h : ∀ s ∈ sigs, skipped inst.SIGNED_BY_ROLE keys signed s) :
    SignedPayload.get_verified inst ⟨sigs, signed, none⟩ keys
      = some (.error .VerificationFailed, ⟨sigs, signed, none⟩) ∧
    SignedPayload.into_verified inst ⟨sigs, signed, none⟩ keys
      = .error .VerificationFailed := by
  have hvs : verify_signature inst keys sigs signed = .error .VerificationFailed :=
    verify_signature_all_skipped inst keys sigs signed h
  constructor
  · rw [get_verified_of_cache_none inst ⟨sigs, signed, none⟩ keys rfl]
    rw [hvs]
  · rw [SignedPayload.into_verified]
    exact hvs

/-- Witness for the amended C3 at the empty signature list against the
concrete repository. -/
theorem c3_all_skipped_verification_failure_witness :
    SignedPayload.get_verified exInst ⟨[], "42", none⟩ exRepo
      = some (.error .VerificationFailed, ⟨[], "42", none⟩) ∧
    SignedPayload.into_verified exInst ⟨[], "42", none⟩ exRepo
      = .error .VerificationFailed :=
  c3_all_skipped_verification_failure exInst exRepo [] "42"
    (by intro s hs; cases hs)

/-- C4: the loop skips a signature whose key id is unresolved, and one whose
key reports the uniform verification failure, continuing with the rest of the
list; any other error kind reported by the key's verify aborts the whole
verification immediately with exactly that error, whatever the remaining
signatures would have done. -/
theorem c4_skip_policy_abort_on_defect {T : Type} (inst : Signable T)
    (keys : PublicKeysRepository) (s : Signature) (rest : List Signature)
    (signed : String) :
    (skipped inst.SIGNED_BY_ROLE keys signed s →
      verify_signature inst keys (s :: rest) signed
        = verify_signature inst keys rest signed) ∧
    ∀ k e, keys.get s.key_sha256 = some k →
      k.verify inst.SIGNED_BY_ROLE signed s.signature = .error e →
      e ≠ .VerificationFailed →
      verify_signature inst keys (s :: rest) signed = .error e := by
  constructor
  · exact verify_signature_skip inst keys s rest signed
  · intro k e hk hv hne
    cases e with
    | VerificationFailed => exact absurd rfl hne
    | DeserializationFailed => simp [verify_signature, hk, hv]
    | SignedPayloadSerializationFailed => simp [verify_signature, hk, hv]
    | MalformedSignatureEncoding => simp [verify_signature, hk, hv]
    | UnsupportedAlgorithm => simp [verify_signature, hk, hv]

/-- Witness for C4: the defect-surfacing signature aborts even though a later
signature would verify, and an unresolved signature is skipped. -/
theorem c4_skip_policy_abort_on_defect_witness :
    verify_signature exInst exRepo [exSigDefect, exSigOk] "42"
      = .error .UnsupportedAlgorithm ∧
    verify_signature exInst exRepo [exSigMissing, exSigOk] "42"
      = verify_signature exInst exRepo [exSigOk] "42" := by
  constructor
  · exact (c4_skip_policy_abort_on_defect exInst exRepo exSigDefect [exSigOk] "42").2
      exKeyDefect .UnsupportedAlgorithm rfl rfl (by decide)
  · exact (c4_skip_policy_abort_on_defect exInst exRepo exSigMissing [exSigOk] "42").1
      (Or.inl rfl)

/-- C5: after a successful `get_verified` against a repository `r₁`, every
subsequent `get_verified` or `into_verified` on the same object returns the
identical cached value for every repository `r₂` — the conclusion does not
depend on `r₂` in any way, so no re-verification is performed. -/
theorem c5_success_memoized_forever {T : Type} (inst : Signable T)
    (p p₁ : SignedPayload T) (r₁ : PublicKeysRepository) (v : T)
    (h : SignedPayload.get_verified inst p r₁ = some (.ok v, p₁)) :
    ∀ r₂ : PublicKeysRepository,
      SignedPayload.get_verified inst p₁ r₂ = some (.ok v, p₁) ∧
      SignedPayload.into_verified inst p₁ r₂ = .ok v := by
  have hc : p₁.verified_deserialized = some v :=
    get_verified_ok_cache inst p p₁ r₁ v h
  intro r₂
  constructor
  · exact get_verified_of_cache_some inst p₁ r₂ v hc
  · rw [SignedPayload.into_verified, hc]

/-- Witness for C5: a payload verified against the concrete repository keeps
returning 42 against the empty repository. -/
theorem c5_success_memoized_forever_witness :
    SignedPayload.get_verified exInst ⟨[exSigOk], "42", some 42⟩ exEmptyRepo
      = some (.ok 42, ⟨[exSigOk], "42", some 42⟩) ∧
    SignedPayload.into_verified exInst ⟨[exSigOk], "42", some 42⟩ exEmptyRepo
      = .ok 42 :=
  c5_success_memoized_forever exInst ⟨[exSigOk], "42", none⟩
    ⟨[exSigOk], "42", some 42⟩ exRepo 42 rfl exEmptyRepo

/-- C6: a failed `get_verified` leaves the object unchanged and its cache
unpopulated, so a later call against a repository in which some signature
verifies (and the bytes deserialize) succeeds: failure is never memoized. -/
theorem c6_failure_not_memoized {T : Type} (inst : Signable T)
    (p p₁ : SignedPayload T) (r₁ : PublicKeysRepository) (e : Error)
    (h : SignedPayload.get_verified inst p r₁ = some (.error e, p₁)) :
    p₁ = p ∧ p.verified_deserialized = none ∧
    ∀ (r₂ : PublicKeysRepository) (v : T),
      verify_signature inst r₂ p.signatures p.signed = .ok v →
      SignedPayload.get_verified inst p r₂
        = some (.ok v, { p with verified_deserialized := some v }) := by
  obtain ⟨hp, hc, -⟩ := get_verified_error_state inst p p₁ r₁ e h
  refine ⟨hp, hc, ?_⟩
  intro r₂ v hv
  rw [get_verified_of_cache_none inst p r₂ hc, hv]

/-- Witness for C6: verification fails against the empty repository, leaves
the payload unchanged, and then succeeds against the concrete repository. -/
theorem c6_failure_not_memoized_witness :
    ((⟨[exSigOk], "42", none⟩ : SignedPayload Nat)
        = ⟨[exSigOk], "42", none⟩) ∧
    (⟨[exSigOk], "42", none⟩ : SignedPayload Nat).verified_deserialized = none ∧
    SignedPayload.get_verified exInst ⟨[exSigOk], "42", none⟩ exRepo
      = some (.ok 42, ⟨[exSigOk], "42", some 42⟩) := by
  obtain ⟨hp, hc, hnext⟩ :=
    c6_failure_not_memoized exInst ⟨[exSigOk], "42", none⟩
      ⟨[exSigOk], "42", none⟩ exEmptyRepo .VerificationFailed rfl
  exact ⟨hp, hc, hnext exRepo 42 rfl⟩

/-- C7 counterexample: a payload whose canonical bytes do not deserialize and
which carries a signature that verifies against the repository, but for which
both accessors fail with the propagated defect error of an earlier signature
rather than with the deserialization-failure error. -/
theorem c7_counterexample :
    accepted exInst.SIGNED_BY_ROLE exRepo "bad" exSigAny ∧
    exSigAny ∈ [exSigDefect, exSigAny] ∧
    exInst.deserialize "bad" = none ∧
    SignedPayload.get_verified exInst ⟨[exSigDefect, exSigAny], "bad", none⟩ exRepo
      = some (.error .UnsupportedAlgorithm, ⟨[exSigDefect, exSigAny], "bad", none⟩) ∧
    SignedPayload.into_verified exInst ⟨[exSigDefect, exSigAny], "bad", none⟩ exRepo
      = .error .UnsupportedAlgorithm ∧
    Error.UnsupportedAlgorithm ≠ Error.DeserializationFailed := by
  refine ⟨⟨exKeyAny, rfl, rfl⟩, by decide, rfl, rfl, rfl, by decide⟩

/-- C7 amended: when the canonical bytes are malformed (not deserializable)
and the signature list has a verifying signature preceded only by skipped
signatures, both accessors fail with the deserialization-failure error, which
is distinct from the verification-failure error. -/
theorem c7_malformed_bytes_deserialization_failure {T : Type} (inst : Signable T)
    (keys : PublicKeysRepository) (pre post : List Signature) (s : Signature)
    (signed : String)
    (hpre : ∀ x ∈ pre, skipped inst.SIGNED_BY_ROLE keys signed x)
    (hs : accepted inst.SIGNED_BY_ROLE keys signed s)
    (hbad : inst.deserialize signed = none) :
    SignedPayload.get_verified inst ⟨pre ++ s :: post, signed, none⟩ keys
      = some (.error .DeserializationFailed, ⟨pre ++ s :: post, signed, none⟩) ∧
    SignedPayload.into_verified inst ⟨pre ++ s :: post, signed, none⟩ keys
      = .error .DeserializationFailed ∧
    Error.DeserializationFailed ≠ Error.VerificationFailed := by
  have hvs : verify_signature inst keys (pre ++ s :: post) signed
      = .error .DeserializationFailed := by
    rw [verify_signature_first_accepted inst keys pre post s signed hpre hs, hbad]
  refine ⟨?_, ?_, by decide⟩
  · rw [get_verified_of_cache_none inst ⟨pre ++ s :: post, signed, none⟩ keys rfl]
    rw [hvs]
  · rw [SignedPayload.into_verified]
    exact hvs

/-- Witness for the amended C7: malformed bytes with a single verifying
signature. -/
theorem c7_malformed_bytes_deserialization_failure_witness :
    SignedPayload.get_verified exInst ⟨[exSigAny], "bad", none⟩ exRepo
      = some (.error .DeserializationFailed, ⟨[exSigAny], "bad", none⟩) ∧
    SignedPayload.into_verified exInst ⟨[exSigAny], "bad", none⟩ exRepo
      = .error .DeserializationFailed ∧
    Error.DeserializationFailed ≠ Error.VerificationFailed :=
  c7_malformed_bytes_deserialization_failure exInst exRepo [] [] exSigAny "bad"
    (by intro x hx; cases hx) ⟨exKeyAny, rfl, rfl⟩ rfl

/-- C8: a successful `add_signature` appends exactly one signature — computed
over the current canonical bytes and tagged with the key's identifier — at
the end of the signature list, leaving the canonical bytes, the cache and
every previously attached signature unchanged; it fails exactly when the
keypair's sign fails, and then the object is unchanged. -/
theorem c8_add_signature_appends_one {T : Type} (p : SignedPayload T)
    (kp : KeyPair) :
    (∀ s, kp.sign p.signed = .ok s →
      SignedPayload.add_signature p kp
        = (.ok (), { p with
            signatures := p.signatures
              ++ [{ key_sha256 := kp.public.id, signature := s }] })) ∧
    ∀ e, kp.sign p.signed = .error e →
      SignedPayload.add_signature p kp = (.error e, p) := by
  constructor
  · intro s hs
    rw [SignedPayload.add_signature, hs]
  · intro e he
    rw [SignedPayload.add_signature, he]

/-- Witness for C8: the concrete keypair signs "42" and fails on "bad". -/
theorem c8_add_signature_appends_one_witness :
    SignedPayload.add_signature (⟨[exSigMissing], "42", none⟩ : SignedPayload Nat)
        exKeyPair
      = (.ok (), ⟨[exSigMissing, exSigOk], "42", none⟩) ∧
    SignedPayload.add_signature (⟨[exSigMissing], "bad", none⟩ : SignedPayload Nat)
        exKeyPair
      = (.error .MalformedSignatureEncoding, ⟨[exSigMissing], "bad", none⟩) := by
  constructor
  · exact (c8_add_signature_appends_one ⟨[exSigMissing], "42", none⟩ exKeyPair).1 [7] rfl
  · exact (c8_add_signature_appends_one ⟨[exSigMissing], "bad", none⟩ exKeyPair).2
      .MalformedSignatureEncoding rfl

/-- C9: serializing a `SignedPayload` and deserializing it back preserves the
signature list and the canonical bytes and resets the cache to empty, so the
round-tripped object verifies, via either accessor and against any
repository, exactly as the original object with an unpopulated cache does. -/
theorem c9_roundtrip_drops_cache {T : Type} (inst : Signable T)
    (p : SignedPayload T) (keys : PublicKeysRepository) :
    SerializedForm.toPayload T (SignedPayload.toSerialized p)
      = ⟨p.signatures, p.signed, none⟩ ∧
    SignedPayload.get_verified inst
        (SerializedForm.toPayload T (SignedPayload.toSerialized p)) keys
      = SignedPayload.get_verified inst ⟨p.signatures, p.signed, none⟩ keys ∧
    SignedPayload.into_verified inst
        (SerializedForm.toPayload T (SignedPayload.toSerialized p)) keys
      = SignedPayload.into_verified inst ⟨p.signatures, p.signed, none⟩ keys :=
  ⟨rfl, rfl, rfl⟩

/-- C10: `get_verified` never reaches its final cache unwrap with an empty
cache (the modelled panic state `none` is unreachable), the value it returns
is exactly what the cache holds in the resulting state (the cache is written
before any reference escapes), and a populated cache is never overwritten:
calls on a cached object return that value and leave the state unchanged, so
over any sequence of calls the cache is written at most once. -/
theorem c10_cache_write_once_no_panic {T : Type} (inst : Signable T)
    (p : SignedPayload T) (keys : PublicKeysRepository) :
    SignedPayload.get_verified inst p keys ≠ none ∧
    ∀ res p₁, SignedPayload.get_verified inst p keys = some (res, p₁) →
      (∀ v, res = .ok v → p₁.verified_deserialized = some v) ∧
      ∀ v, p.verified_deserialized = some v → res = .ok v ∧ p₁ = p := by
  constructor
  · cases hc : p.verified_deserialized with
    | some w =>
      rw [get_verified_of_cache_some inst p keys w hc]
      exact Option.noConfusion
    | none =>
      rw [get_verified_of_cache_none inst p keys hc]
      cases hv : verify_signature inst keys p.signatures p.signed with
      | ok w => exact Option.noConfusion
      | error e => exact Option.noConfusion
  · intro res p₁ h
    constructor
    · intro v hres
      rw [hres] at h
      exact get_verified_ok_cache inst p p₁ keys v h
    · intro v hc
      rw [get_verified_of_cache_some inst p keys v hc] at h
      simp only [Option.some.injEq, Prod.mk.injEq] at h
      exact ⟨h.1.symm, h.2.symm⟩

/-- Witness for C10 at a concrete payload with a populated cache. -/
theorem c10_cache_write_once_no_panic_witness :
    SignedPayload.get_verified exInst ⟨[], "42", some 5⟩ exEmptyRepo ≠ none ∧
    (⟨[], "42", some 5⟩ : SignedPayload Nat).verified_deserialized = some 5 := by
  refine ⟨(c10_cache_write_once_no_panic exInst ⟨[], "42", some 5⟩ exEmptyRepo).1, ?_⟩
  exact ((c10_cache_write_once_no_panic exInst ⟨[], "42", some 5⟩ exEmptyRepo).2
    (.ok 5) ⟨[], "42", some 5⟩ rfl).1 5 rfl

end Criticaltrust
